import Mathlib

/-!
Verification of `verify_loading.py`: a one-shot script that launches a
headless browser, opens a page, navigates to a fixed local URL, waits for
the text "LOADING" to appear, captures a screenshot to a fixed path,
prints a confirmation, and closes the browser.  The whole body runs inside
the automation library's context manager (`async with async_playwright()`),
which releases every resource it owns when the block is exited, normally
or by exception.

The embedding is a pure function from an environment (which of the five
awaited operations succeeds, and the captured image bytes) and an initial
filesystem to the trace of operations performed, the final outcome, and
the final filesystem.
-/

/-- The fixed target URL hardcoded in the script: `page.goto("http://localhost:8081")`. -/
def targetURL : String := "http://localhost:8081"

/-- The fixed wait condition hardcoded in the script: `page.wait_for_selector("text=LOADING")`. -/
def loadingSelector : String := "text=LOADING"

/-- The fixed output path hardcoded in the script: `page.screenshot(path="loading_verification.png")`. -/
def outputPath : String := "loading_verification.png"

/-- The confirmation line printed on success: `print("Captured loading_verification.png")`. -/
def confirmationMsg : String := "Captured loading_verification.png"

/-- Operations the script can perform, in the order its lines issue them.
`stopPlaywright` is the context-manager exit of `async with async_playwright()`,
which runs on every exit path of the block. -/
inductive Ev where
  | launch
  | newPage
  | goto (url : String)
  | waitForSelector (sel : String)
  | screenshot (path : String)
  | printMsg (msg : String)
  | browserClose
  | stopPlaywright
deriving DecidableEq, Repr

/-- The error kinds an awaited operation of the script can raise. -/
inductive ErrKind where
  | launchError
  | newPageError
  | navigationError
  | timeoutError
  | screenshotError
deriving DecidableEq, Repr

/-- Final outcome of a run: normal return, or an uncaught exception. -/
inductive Outcome where
  | success
  | error (e : ErrKind)
deriving DecidableEq, Repr

/-- The filesystem, as an association list from paths to byte contents. -/
abbrev Fs := List (String × List Nat)

/-- Write a file, overwriting any existing entry at the same path. -/
def setFile : Fs → String → List Nat → Fs
  | [], p, c => [(p, c)]
  | (q, d) :: rest, p, c =>
      if q = p then (p, c) :: rest else (q, d) :: setFile rest p c

/-- Read a file by path. -/
def getFile : Fs → String → Option (List Nat)
  | [], _ => none
  | (q, d) :: rest, p => if q = p then some d else getFile rest p

/-- The paths present on the filesystem. -/
def keysOf (fs : Fs) : List String := fs.map Prod.fst

/-- The environment a run executes against: whether each of the five awaited
operations succeeds when reached, and the bytes the screenshot captures. -/
structure Env where
  launchOk : Bool
  newPageOk : Bool
  gotoOk : Bool
  selectorOk : Bool
  screenshotOk : Bool
  image : List Nat
deriving DecidableEq, Repr

/-- The result of a run: the trace of operations performed, the outcome,
and the final filesystem. -/
structure RunResult where
  trace : List Ev
  outcome : Outcome
  fs : Fs
deriving DecidableEq, Repr

/-- Shallow embedding of `run()` from `verify_loading.py`.  Each awaited call
is attempted in program order; if it raises, the exception propagates out of
the `async with` block, whose exit (`stopPlaywright`) runs on every path:
```
async with async_playwright() as p:
    browser = await p.chromium.launch()
    page = await browser.new_page()
    await page.goto("http://localhost:8081")
    await page.wait_for_selector("text=LOADING")
    await page.screenshot(path="loading_verification.png")
    print("Captured loading_verification.png")
    await browser.close()
```
-/
def run (env : Env) (fs0 : Fs) : RunResult :=
  if env.launchOk then
    if env.newPageOk then
      if env.gotoOk then
        if env.selectorOk then
          if env.screenshotOk then
            { trace := [.launch, .newPage, .goto targetURL,
                        .waitForSelector loadingSelector, .screenshot outputPath,
                        .printMsg confirmationMsg, .browserClose, .stopPlaywright],
              outcome := .success,
              fs := setFile fs0 outputPath env.image }
          else
            { trace := [.launch, .newPage, .goto targetURL,
                        .waitForSelector loadingSelector, .screenshot outputPath,
                        .stopPlaywright],
              outcome := .error .screenshotError, fs := fs0 }
        else
          { trace := [.launch, .newPage, .goto targetURL,
                      .waitForSelector loadingSelector, .stopPlaywright],
            outcome := .error .timeoutError, fs := fs0 }
      else
        { trace := [.launch, .newPage, .goto targetURL, .stopPlaywright],
          outcome := .error .navigationError, fs := fs0 }
    else
      { trace := [.launch, .newPage, .stopPlaywright],
        outcome := .error .newPageError, fs := fs0 }
  else
    { trace := [.launch, .stopPlaywright],
      outcome := .error .launchError, fs := fs0 }

/-- Modelled from the spec: the environment scenarios the spec admits.  Per
sections 7 and 8 there are "two error kinds only": navigation failure when the
server is unreachable, and wait-timeout failure when "LOADING" never renders;
browser launch, page creation and the screenshot write themselves succeed, and
a capture is a non-empty image (here the four PNG magic bytes). -/
def specEnv (reachable renders : Bool) : Env :=
  { launchOk := true, newPageOk := true, gotoOk := reachable,
    selectorOk := renders, screenshotOk := true,
    image := [137, 80, 78, 71] }

/-- Modelled from the spec: the top-level `asyncio.run(run())` has no handler,
so an error outcome propagates uncaught and the interpreter exits nonzero (1);
a normal return exits 0. -/
def mainExitCode (env : Env) (fs : Fs) : Nat :=
  match (run env fs).outcome with
  | .success => 0
  | .error _ => 1

/-- Modelled from the spec: the exception, if any, that reaches the top level
uncaught — the script installs no handler, so it is exactly the run's error. -/
def uncaught (env : Env) (fs : Fs) : Option ErrKind :=
  match (run env fs).outcome with
  | .success => none
  | .error e => some e

/-- Resource bookkeeping: `(browserAlive, pageOpen)` after one operation.
Launching acquires the browser process; opening a page acquires the page
handle; closing the browser releases both (closing a browser closes its
pages); the context-manager exit `stopPlaywright` terminates the automation
driver and with it every browser it launched, releasing both. -/
def stepRes : Bool × Bool → Ev → Bool × Bool
  | (_, pg), .launch => (true, pg)
  | (b, _), .newPage => (b, true)
  | _, .browserClose => (false, false)
  | _, .stopPlaywright => (false, false)
  | st, _ => st

/-- Resources still held after a trace, starting from nothing held. -/
def resAfter (tr : List Ev) : Bool × Bool := tr.foldl stepRes (false, false)

/-- The six externally visible steps the spec lists for the routine
(print and the context-manager exit are not among them). -/
def isStepEv : Ev → Bool
  | .launch => true
  | .newPage => true
  | .goto _ => true
  | .waitForSelector _ => true
  | .screenshot _ => true
  | .browserClose => true
  | _ => false

/-- The canonical full order of the six steps on a successful run. -/
def canonicalSteps : List Ev :=
  [.launch, .newPage, .goto targetURL, .waitForSelector loadingSelector,
   .screenshot outputPath, .browserClose]

/-- The step events of a trace, in order. -/
def stepEvents (tr : List Ev) : List Ev := tr.filter isStepEv

/-- Operation kinds, forgetting string payloads, for counting repetitions. -/
inductive Kind where
  | kLaunch | kNewPage | kGoto | kWait | kShot | kPrint | kClose | kStop
deriving DecidableEq, Repr

/-- The kind of an operation. -/
def evKind : Ev → Kind
  | .launch => .kLaunch
  | .newPage => .kNewPage
  | .goto _ => .kGoto
  | .waitForSelector _ => .kWait
  | .screenshot _ => .kShot
  | .printMsg _ => .kPrint
  | .browserClose => .kClose
  | .stopPlaywright => .kStop

/-- How many operations of a given kind a trace performs. -/
def countKind (k : Kind) (tr : List Ev) : Nat :=
  tr.countP (fun ev => evKind ev = k)

/-- All five awaited operations succeed. -/
def allSteps (env : Env) : Bool :=
  env.launchOk && env.newPageOk && env.gotoOk && env.selectorOk && env.screenshotOk

/-- Writing a file makes it readable back with exactly the written content. -/
theorem getFile_setFile (fs : Fs) (p : String) (c : List Nat) :
    getFile (setFile fs p c) p = some c := by
  induction fs with
  | nil => simp [setFile, getFile]
  | cons hd tl ih =>
      obtain ⟨q, d⟩ := hd
      by_cases h : q = p
      · simp [setFile, getFile, h]
      · simp [setFile, getFile, h, ih]

/-- After a write, the written path is present on the filesystem. -/
theorem mem_keysOf_setFile (fs : Fs) (p : String) (c : List Nat) :
    p ∈ keysOf (setFile fs p c) := by
  induction fs with
  | nil => simp [setFile, keysOf]
  | cons hd tl ih =>
      obtain ⟨q, d⟩ := hd
      by_cases h : q = p
      · simp [setFile, keysOf, h]
      · simpa [setFile, keysOf, h] using Or.inr ih

/-- Writing to a path already present leaves the set of paths unchanged. -/
theorem keysOf_setFile_of_mem (fs : Fs) (p : String) (c : List Nat)
    (hm : p ∈ keysOf fs) : keysOf (setFile fs p c) = keysOf fs := by
  induction fs with
  | nil => simp [keysOf] at hm
  | cons hd tl ih =>
      obtain ⟨q, d⟩ := hd
      by_cases h : q = p
      · simp [setFile, keysOf, h]
      · have h' : ¬ p = q := fun hh => h hh.symm
        have hm' : p ∈ keysOf tl := by
          simpa [keysOf, h'] using hm
        have hrec := ih hm'
        simp only [keysOf] at hrec
        simp [setFile, keysOf, h, hrec]

/-- C1: with the server reachable and rendering "LOADING" within the timeout
(the spec's success scenario), the routine terminates successfully, the
output path holds a non-empty image afterwards, and the confirmation
message is printed. -/
theorem c1_success_captures_nonempty_image (fs : Fs) :
    (run (specEnv true true) fs).outcome = .success ∧
    (∃ img, getFile (run (specEnv true true) fs).fs outputPath = some img ∧ img ≠ []) ∧
    Ev.printMsg confirmationMsg ∈ (run (specEnv true true) fs).trace := by
  refine ⟨rfl, ⟨[137, 80, 78, 71], ?_, by decide⟩, ?_⟩
  · simpa [run, specEnv] using getFile_setFile fs outputPath [137, 80, 78, 71]
  · simp [run, specEnv]

/-- C2: with the server reachable but "LOADING" never appearing within the
timeout, the routine fails with a timeout error, the filesystem is untouched,
and the screenshot step is never reached. -/
theorem c2_timeout_no_output (fs : Fs) :
    (run (specEnv true false) fs).outcome = .error .timeoutError ∧
    (run (specEnv true false) fs).fs = fs ∧
    (∀ p, Ev.screenshot p ∉ (run (specEnv true false) fs).trace) := by
  refine ⟨rfl, rfl, ?_⟩
  intro p
  simp [run, specEnv]

/-- C3: with the server unreachable, navigation fails with a connection error,
the filesystem is untouched, and no later step of the routine (selector wait,
screenshot, print, browser close) executes. -/
theorem c3_unreachable_no_output (renders : Bool) (fs : Fs) :
    (run (specEnv false renders) fs).outcome = .error .navigationError ∧
    (run (specEnv false renders) fs).fs = fs ∧
    (∀ s, Ev.waitForSelector s ∉ (run (specEnv false renders) fs).trace) ∧
    (∀ p, Ev.screenshot p ∉ (run (specEnv false renders) fs).trace) ∧
    (∀ m, Ev.printMsg m ∉ (run (specEnv false renders) fs).trace) ∧
    Ev.browserClose ∉ (run (specEnv false renders) fs).trace := by
  refine ⟨rfl, rfl, ?_, ?_, ?_, ?_⟩ <;> simp [run, specEnv]

/-- C4: on every exit path of the routine — success, launch failure, page
failure, navigation error, wait timeout, or screenshot error — both acquired
resources (browser process and page handle) are released by the end of the
trace: nothing is leaked. -/
theorem c4_resources_released (env : Env) (fs : Fs) :
    resAfter (run env fs).trace = (false, false) := by
  obtain ⟨l, n, g, s, sh, img⟩ := env
  cases l <;> cases n <;> cases g <;> cases s <;> cases sh <;>
    simp [run, resAfter, stepRes]

/-- C5: in every run the six listed steps occur in the fixed linear order
launch, new page, navigate, selector wait, screenshot, browser close — each at
most once, none beginning before the previous completed (the performed steps
always form an initial segment of the canonical order); on success all six are
performed, in exactly that order. -/
theorem c5_linear_order (env : Env) (fs : Fs) :
    (∃ rest, stepEvents (run env fs).trace ++ rest = canonicalSteps) ∧
    ((run env fs).outcome = .success →
      stepEvents (run env fs).trace = canonicalSteps) := by
  obtain ⟨l, n, g, s, sh, img⟩ := env
  cases l <;> cases n <;> cases g <;> cases s <;> cases sh <;>
    constructor <;>
    first
      | (intro h
         first
           | rfl
           | simp [run] at h)
      | exact ⟨[.newPage, .goto targetURL, .waitForSelector loadingSelector,
                .screenshot outputPath, .browserClose], rfl⟩
      | exact ⟨[.goto targetURL, .waitForSelector loadingSelector,
                .screenshot outputPath, .browserClose], rfl⟩
      | exact ⟨[.waitForSelector loadingSelector, .screenshot outputPath,
                .browserClose], rfl⟩
      | exact ⟨[.screenshot outputPath, .browserClose], rfl⟩
      | exact ⟨[.browserClose], rfl⟩
      | exact ⟨[], rfl⟩

/-- C5 witness: on the spec's success environment the run succeeds and the
performed steps are exactly the canonical six, in order. -/
theorem c5_linear_order_witness :
    stepEvents (run (specEnv true true) []).trace = canonicalSteps :=
  (c5_linear_order (specEnv true true) []).2 rfl

/-- C6: every error outcome propagates uncaught to the top level and
terminates the process with exit code 1, and no operation kind is ever
performed more than once in a run (no retries; in particular at most one
navigation and at most one capture). -/
theorem c6_uncaught_and_no_retries (env : Env) (fs : Fs) :
    (∀ e, (run env fs).outcome = .error e →
      mainExitCode env fs = 1 ∧ uncaught env fs = some e) ∧
    (∀ k, countKind k (run env fs).trace ≤ 1) := by
  constructor
  · intro e h
    constructor
    · simp [mainExitCode, h]
    · simp [uncaught, h]
  · obtain ⟨l, n, g, s, sh, img⟩ := env
    intro k
    cases l <;> cases n <;> cases g <;> cases s <;> cases sh <;> cases k <;>
      simp [run, countKind, evKind, List.countP, List.countP.go]

/-- C6 witness: with the server unreachable, the run ends in a navigation
error, the process exits with code 1, the error reaches the top level
uncaught, and the navigation was attempted exactly once. -/
theorem c6_uncaught_and_no_retries_witness :
    mainExitCode (specEnv false true) [] = 1 ∧
    uncaught (specEnv false true) [] = some .navigationError ∧
    countKind .kGoto (run (specEnv false true) []).trace ≤ 1 :=
  ⟨((c6_uncaught_and_no_retries (specEnv false true) []).1 .navigationError rfl).1,
   ((c6_uncaught_and_no_retries (specEnv false true) []).1 .navigationError rfl).2,
   (c6_uncaught_and_no_retries (specEnv false true) []).2 .kGoto⟩

/-- Modelled from the spec: "No CLI flags, no configuration surface" — the
script never reads its argument vector (no reference to `sys.argv` in the
source), so the process-level behavior is the run and its exit code, whatever
arguments the interpreter was handed. -/
def mainWithArgv (argv : List String) (env : Env) (fs : Fs) : RunResult × Nat :=
  (run env fs, mainExitCode env fs)

/-- C7: the routine takes no inputs.  Every navigation in any run targets the
hardcoded local URL, every selector wait uses the hardcoded "LOADING" text
condition, every screenshot writes the hardcoded relative path, the filesystem
changes at most at that path, and the argument vector influences nothing. -/
theorem c7_fixed_parameters (env : Env) (fs : Fs) :
    (∀ u, Ev.goto u ∈ (run env fs).trace → u = targetURL) ∧
    (∀ s, Ev.waitForSelector s ∈ (run env fs).trace → s = loadingSelector) ∧
    (∀ p, Ev.screenshot p ∈ (run env fs).trace → p = outputPath) ∧
    ((run env fs).fs = fs ∨ (run env fs).fs = setFile fs outputPath env.image) ∧
    (∀ argv1 argv2, mainWithArgv argv1 env fs = mainWithArgv argv2 env fs) := by
  obtain ⟨l, n, g, s, sh, img⟩ := env
  cases l <;> cases n <;> cases g <;> cases s <;> cases sh <;>
    refine ⟨?_, ?_, ?_, ?_, fun a1 a2 => rfl⟩ <;>
    first
      | exact Or.inl rfl
      | exact Or.inr rfl
      | (intro x hx
         first
           | (simp [run] at hx; exact hx)
           | simp [run] at hx)

/-- C7 witness: in the spec's success scenario the navigation seen in the
trace is to the fixed URL. -/
theorem c7_fixed_parameters_witness :
    Ev.goto "http://localhost:8081" ∈ (run (specEnv true true) []).trace →
      "http://localhost:8081" = targetURL :=
  (c7_fixed_parameters (specEnv true true) []).1 "http://localhost:8081"

/-- On a fully successful run the final filesystem is the initial one with the
image written at the fixed output path. -/
theorem run_fs_of_allSteps (env : Env) (fs : Fs) (h : allSteps env = true) :
    (run env fs).fs = setFile fs outputPath env.image := by
  obtain ⟨l, n, g, s, sh, img⟩ := env
  simp only [allSteps, Bool.and_eq_true] at h
  obtain ⟨⟨⟨⟨hl, hn⟩, hg⟩, hs⟩, hsh⟩ := h
  subst hl hn hg hs hsh
  rfl

/-- A fully successful run succeeds. -/
theorem run_outcome_of_allSteps (env : Env) (fs : Fs) (h : allSteps env = true) :
    (run env fs).outcome = .success := by
  obtain ⟨l, n, g, s, sh, img⟩ := env
  simp only [allSteps, Bool.and_eq_true] at h
  obtain ⟨⟨⟨⟨hl, hn⟩, hg⟩, hs⟩, hsh⟩ := h
  subst hl hn hg hs hsh
  rfl

/-- Iterating the routine over a list of environments, threading the
filesystem through. -/
def runsFs (fs : Fs) (l : List Env) : Fs := l.foldl (fun f e => (run e f).fs) fs

/-- Successful runs never change the set of paths once the output path is
already present. -/
theorem keysOf_runsFs (l : List Env) (acc : Fs) (hmem : outputPath ∈ keysOf acc)
    (hl : ∀ e ∈ l, allSteps e = true) : keysOf (runsFs acc l) = keysOf acc := by
  induction l generalizing acc with
  | nil => rfl
  | cons e tl ih =>
      have he : allSteps e = true := hl e (List.mem_cons_self e tl)
      have hfs : (run e acc).fs = setFile acc outputPath e.image :=
        run_fs_of_allSteps e acc he
      have hkeys : keysOf ((run e acc).fs) = keysOf acc := by
        rw [hfs]
        exact keysOf_setFile_of_mem acc outputPath e.image hmem
      have hmem' : outputPath ∈ keysOf ((run e acc).fs) := hkeys ▸ hmem
      have htl : ∀ x ∈ tl, allSteps x = true :=
        fun x hx => hl x (List.mem_cons_of_mem e hx)
      calc keysOf (runsFs acc (e :: tl))
          = keysOf (runsFs ((run e acc).fs) tl) := rfl
        _ = keysOf ((run e acc).fs) := ih ((run e acc).fs) hmem' htl
        _ = keysOf acc := hkeys

/-- C8: every successful run writes to the same fixed path.  After one
successful run followed by any number of further successful runs, the set of
file paths is exactly what it was after the first run, and any further
successful run overwrites the fixed path with its own capture. -/
theorem c8_idempotent_output_location (e0 : Env) (rest : List Env) (fs : Fs)
    (h0 : allSteps e0 = true) (hr : ∀ e ∈ rest, allSteps e = true) :
    keysOf (runsFs ((run e0 fs).fs) rest) = keysOf ((run e0 fs).fs) ∧
    (∀ e, allSteps e = true →
      getFile ((run e ((run e0 fs).fs)).fs) outputPath = some e.image) := by
  have hfs0 : (run e0 fs).fs = setFile fs outputPath e0.image :=
    run_fs_of_allSteps e0 fs h0
  have hmem : outputPath ∈ keysOf ((run e0 fs).fs) := by
    rw [hfs0]
    exact mem_keysOf_setFile fs outputPath e0.image
  refine ⟨keysOf_runsFs rest _ hmem hr, ?_⟩
  intro e he
  rw [run_fs_of_allSteps e _ he]
  exact getFile_setFile _ outputPath e.image

/-- C8 witness: two consecutive successful runs from an empty filesystem leave
exactly the single fixed output path, holding the second capture. -/
theorem c8_idempotent_output_location_witness :
    keysOf (runsFs ((run (specEnv true true) []).fs) [specEnv true true]) =
      keysOf ((run (specEnv true true) []).fs) ∧
    getFile ((run (specEnv true true)
        ((run (specEnv true true) []).fs)).fs) outputPath =
      some (specEnv true true).image :=
  ⟨(c8_idempotent_output_location (specEnv true true) [specEnv true true] []
      rfl (by decide)).1,
   (c8_idempotent_output_location (specEnv true true) [specEnv true true] []
      rfl (by decide)).2 (specEnv true true) rfl⟩

/-- Big-step execution relation for the script, one constructor per exit path
of the `async with` block: the five awaited operations are attempted in
program order, the first failure aborts with the corresponding error, and a
run with no failure captures, prints, closes and returns. -/
inductive ExecR : Env → Fs → RunResult → Prop where
  | launchFail (env : Env) (fs : Fs) (h1 : env.launchOk = false) :
      ExecR env fs ⟨[.launch, .stopPlaywright], .error .launchError, fs⟩
  | pageFail (env : Env) (fs : Fs) (h1 : env.launchOk = true)
      (h2 : env.newPageOk = false) :
      ExecR env fs ⟨[.launch, .newPage, .stopPlaywright], .error .newPageError, fs⟩
  | navFail (env : Env) (fs : Fs) (h1 : env.launchOk = true)
      (h2 : env.newPageOk = true) (h3 : env.gotoOk = false) :
      ExecR env fs ⟨[.launch, .newPage, .goto targetURL, .stopPlaywright],
        .error .navigationError, fs⟩
  | waitFail (env : Env) (fs : Fs) (h1 : env.launchOk = true)
      (h2 : env.newPageOk = true) (h3 : env.gotoOk = true)
      (h4 : env.selectorOk = false) :
      ExecR env fs ⟨[.launch, .newPage, .goto targetURL,
        .waitForSelector loadingSelector, .stopPlaywright],
        .error .timeoutError, fs⟩
  | shotFail (env : Env) (fs : Fs) (h1 : env.launchOk = true)
      (h2 : env.newPageOk = true) (h3 : env.gotoOk = true)
      (h4 : env.selectorOk = true) (h5 : env.screenshotOk = false) :
      ExecR env fs ⟨[.launch, .newPage, .goto targetURL,
        .waitForSelector loadingSelector, .screenshot outputPath,
        .stopPlaywright], .error .screenshotError, fs⟩
  | finish (env : Env) (fs : Fs) (h1 : env.launchOk = true)
      (h2 : env.newPageOk = true) (h3 : env.gotoOk = true)
      (h4 : env.selectorOk = true) (h5 : env.screenshotOk = true) :
      ExecR env fs ⟨[.launch, .newPage, .goto targetURL,
        .waitForSelector loadingSelector, .screenshot outputPath,
        .printMsg confirmationMsg, .browserClose, .stopPlaywright],
        .success, setFile fs outputPath env.image⟩

/-- The functional embedding realizes the execution relation. -/
theorem execR_run (env : Env) (fs : Fs) : ExecR env fs (run env fs) := by
  obtain ⟨l, n, g, s, sh, img⟩ := env
  cases l <;> cases n <;> cases g <;> cases s <;> cases sh <;>
    first
      | exact ExecR.launchFail _ _ rfl
      | exact ExecR.pageFail _ _ rfl rfl
      | exact ExecR.navFail _ _ rfl rfl rfl
      | exact ExecR.waitFail _ _ rfl rfl rfl rfl
      | exact ExecR.shotFail _ _ rfl rfl rfl rfl rfl
      | exact ExecR.finish _ _ rfl rfl rfl rfl rfl

/-- C9: the routine is deterministic given the environment's responses: any
two executions against the same responses and the same initial filesystem
perform the identical sequence of operations and produce the identical
outcome and filesystem — and the functional embedding is the one execution. -/
theorem c9_deterministic (env : Env) (fs : Fs) :
    (∀ r1 r2, ExecR env fs r1 → ExecR env fs r2 → r1 = r2) ∧
    ExecR env fs (run env fs) := by
  refine ⟨?_, execR_run env fs⟩
  intro r1 r2 h1 h2
  cases h1 <;> cases h2 <;> simp_all

/-- C9 witness: determinism pins the successful run from an empty filesystem
to its exact trace, outcome and final filesystem. -/
theorem c9_deterministic_witness :
    run (specEnv true true) [] =
      ⟨[.launch, .newPage, .goto targetURL, .waitForSelector loadingSelector,
        .screenshot outputPath, .printMsg confirmationMsg, .browserClose,
        .stopPlaywright], .success, [(outputPath, [137, 80, 78, 71])]⟩ :=
  (c9_deterministic (specEnv true true) []).1 _ _
    (c9_deterministic (specEnv true true) []).2
    (ExecR.finish (specEnv true true) [] rfl rfl rfl rfl rfl)

/-- C10: the confirmation line is printed exactly when all five awaited
operations succeed — any exception from launch, page creation, navigation,
the selector wait or the screenshot skips it — its text is exactly the fixed
message, and on success it is printed strictly before the browser is closed. -/
theorem c10_confirmation_print (env : Env) (fs : Fs) :
    (Ev.printMsg confirmationMsg ∈ (run env fs).trace ↔ allSteps env = true) ∧
    (∀ m, Ev.printMsg m ∈ (run env fs).trace → m = confirmationMsg) ∧
    ((run env fs).outcome = .success →
      ∃ i j, i < j ∧ (run env fs).trace.get? i = some (.printMsg confirmationMsg) ∧
        (run env fs).trace.get? j = some Ev.browserClose) := by
  obtain ⟨l, n, g, s, sh, img⟩ := env
  cases l <;> cases n <;> cases g <;> cases s <;> cases sh <;>
    refine ⟨by simp [run, allSteps], ?_, ?_⟩ <;>
    first
      | (intro m hm
         first
           | (simp [run] at hm; exact hm)
           | simp [run] at hm)
      | (intro h
         first
           | exact ⟨5, 6, by decide, rfl, rfl⟩
           | simp [run] at h)

/-- C10 witness: in the spec's success scenario the confirmation line is in
the trace, and it appears strictly before the browser close. -/
theorem c10_confirmation_print_witness :
    Ev.printMsg confirmationMsg ∈ (run (specEnv true true) []).trace ∧
    ∃ i j, i < j ∧
      (run (specEnv true true) []).trace.get? i =
        some (.printMsg confirmationMsg) ∧
      (run (specEnv true true) []).trace.get? j = some Ev.browserClose :=
  ⟨(c10_confirmation_print (specEnv true true) []).1.mpr rfl,
   (c10_confirmation_print (specEnv true true) []).2.2 rfl⟩

/-- C1 witness: the success scenario evaluated from an empty filesystem. -/
theorem c1_success_captures_nonempty_image_witness :
    (run (specEnv true true) []).outcome = .success ∧
    (∃ img, getFile (run (specEnv true true) []).fs outputPath = some img ∧
      img ≠ []) ∧
    Ev.printMsg confirmationMsg ∈ (run (specEnv true true) []).trace :=
  c1_success_captures_nonempty_image []

/-- C2 witness: the timeout scenario evaluated on a filesystem that already
holds an old capture: the outcome is the timeout error, the file is untouched,
and no screenshot of the output path was taken. -/
theorem c2_timeout_no_output_witness :
    (run (specEnv true false) [(outputPath, [1])]).outcome =
      .error .timeoutError ∧
    (run (specEnv true false) [(outputPath, [1])]).fs = [(outputPath, [1])] ∧
    Ev.screenshot outputPath ∉ (run (specEnv true false) [(outputPath, [1])]).trace :=
  ⟨(c2_timeout_no_output [(outputPath, [1])]).1,
   (c2_timeout_no_output [(outputPath, [1])]).2.1,
   (c2_timeout_no_output [(outputPath, [1])]).2.2 outputPath⟩

/-- C3 witness: the unreachable scenario evaluated from an empty filesystem:
navigation error, nothing written, and neither the wait, the screenshot, the
print nor the browser close executed. -/
theorem c3_unreachable_no_output_witness :
    (run (specEnv false true) []).outcome = .error .navigationError ∧
    (run (specEnv false true) []).fs = [] ∧
    Ev.waitForSelector loadingSelector ∉ (run (specEnv false true) []).trace ∧
    Ev.screenshot outputPath ∉ (run (specEnv false true) []).trace ∧
    Ev.printMsg confirmationMsg ∉ (run (specEnv false true) []).trace ∧
    Ev.browserClose ∉ (run (specEnv false true) []).trace :=
  ⟨(c3_unreachable_no_output true []).1,
   (c3_unreachable_no_output true []).2.1,
   (c3_unreachable_no_output true []).2.2.1 loadingSelector,
   (c3_unreachable_no_output true []).2.2.2.1 outputPath,
   (c3_unreachable_no_output true []).2.2.2.2.1 confirmationMsg,
   (c3_unreachable_no_output true []).2.2.2.2.2⟩

/-- C4 witness: after a run that times out on the selector wait, no browser
process and no page handle remain held. -/
theorem c4_resources_released_witness :
    resAfter (run (specEnv true false) []).trace = (false, false) :=
  c4_resources_released (specEnv true false) []
